import Mathlib

/-!
Verification of the Poslyzer posture-analysis system.

The development shallowly embeds the Node relay layer
(`backend/nodeServer/routes/videoRoutes.js` and the video controller with
`analyzeUploadedVideo` / `analyzeSingleFrame`), the React `RecordPage`
client, and — since the Python engine sources are not part of the
repository snapshot — a spec-modelled posture engine (Rule Evaluator,
Frame Analyzer, Session Aggregator).
-/

/-- A minimal JSON value model, enough to express the bodies the relay
layer builds with `res.json(...)`. -/
inductive Json where
  | null : Json
  | bool : Bool → Json
  | num : Int → Json
  | str : String → Json
  | arr : List Json → Json
  | obj : List (String × Json) → Json

/-- Top-level keys of a JSON object (empty for non-objects). -/
def topKeys : Json → List String
  | .obj fields => fields.map Prod.fst
  | _ => []

/-- A file held in memory by multer memoryStorage (`req.file.buffer`). -/
structure MemFile where
  buffer : List Nat

/-- A file saved to disk by multer disk storage (`req.file.path`). -/
structure DiskFile where
  path : String

/-- An HTTP response as produced by `res.status(s).json(body)`. -/
structure HttpResponse where
  status : Nat
  body : Json

/-- JavaScript `a || d` on an optional string: `undefined` and the empty
string are falsy and yield the default. -/
def jsOr (v : Option String) (d : String) : String :=
  match v with
  | none => d
  | some s => if s = "" then d else s

/-- The error message produced when the controller reads
`req.file.buffer` (or `req.file.path`) while `req.file` is undefined. -/
def undefinedFileMsg : String := "Cannot read properties of undefined"

/-- The request object seen by `analyzeUploadedVideo`: `req.file` set by
`uploadVideo.single` and `req.body.mode`. -/
structure UploadReqVideo where
  file : Option DiskFile
  mode : Option String

/-- The request object seen by `analyzeSingleFrame`: `req.file` set by
`uploadFrame.single` (in-memory) and `req.body.mode`. -/
structure FrameReq where
  file : Option MemFile
  mode : Option String

/-- `analyzeUploadedVideo` from the video controller. The engine (the
axios POST to the Python service `/analyze` route) is a parameter taking
the file path and the mode string. Returns the HTTP response together
with a flag recording whether `fs.unlinkSync(filePath)` ran. Reading
`req.file.path` with no file throws, the engine call may throw; either
lands in the catch branch which answers 500 without deleting the file.
On success the file is deleted and the engine data is wrapped as
`{success: true, flaskResponse: data}`. -/
def analyzeUploadedVideo (engine : String → String → Except String Json)
    (req : UploadReqVideo) : HttpResponse × Bool :=
  match req.file with
  | none =>
    ({ status := 500,
       body := .obj [("success", .bool false), ("error", .str undefinedFileMsg)] }, false)
  | some f =>
    match engine f.path (jsOr req.mode "squat") with
    | .error msg =>
      ({ status := 500,
         body := .obj [("success", .bool false), ("error", .str msg)] }, false)
    | .ok data =>
      ({ status := 200,
         body := .obj [("success", .bool true), ("flaskResponse", data)] }, true)

/-- `analyzeSingleFrame` from the video controller. The engine (the
axios POST to the Python service `/frame` route) takes the image buffer
and the mode string. Success wraps the engine data as
`{success: true, feedback: data}`; any throw (including reading
`req.file.buffer` with no file) answers 500. -/
def analyzeSingleFrame (engine : List Nat → String → Except String Json)
    (req : FrameReq) : HttpResponse :=
  match req.file with
  | none =>
    { status := 500,
      body := .obj [("success", .bool false), ("error", .str undefinedFileMsg)] }
  | some f =>
    match engine f.buffer (jsOr req.mode "squat") with
    | .error msg =>
      { status := 500,
        body := .obj [("success", .bool false), ("error", .str msg)] }
    | .ok data =>
      { status := 200,
        body := .obj [("success", .bool true), ("feedback", data)] }

/-- The request object seen by the `/analyze-squat` route handler:
`req.file` from `uploadExercise.single` and `req.body.imagePath`. -/
structure ExerciseReq where
  file : Option DiskFile
  imagePath : Option String

/-- The POST `/api/video/analyze-squat` route handler. The temp file is
unlinked on the success path and in the catch branch alike, in both
cases only when `req.file` is set. The Bool records whether the temp
file was deleted. -/
def analyzeSquatRoute (engine : String → Except String Json)
    (req : ExerciseReq) : HttpResponse × Bool :=
  match req.file with
  | some f =>
    match engine f.path with
    | .ok data => ({ status := 200, body := data }, true)
    | .error msg =>
      ({ status := 500, body := .obj [("error", .str msg)] }, true)
  | none =>
    match req.imagePath with
    | some p =>
      match engine p with
      | .ok data => ({ status := 200, body := data }, false)
      | .error msg =>
        ({ status := 500, body := .obj [("error", .str msg)] }, false)
    | none =>
      ({ status := 400, body := .obj [("error", .str "No image provided")] }, false)

/-! ### Spec-modelled posture engine

The Python engine sources (Frame Analyzer, Rule Evaluator, Session
Aggregator) are not in the repository snapshot; only their Dockerfile and
their HTTP callers are. The following definitions are modelled from the
spec (sections 3, 4.2, 4.3, 4.4, 6 and 7). -/

/-- Modelled from the spec: the error taxonomy of section 7. -/
inductive ErrorKind where
  | UnsupportedMode : ErrorKind
  | NoDetection : ErrorKind
  | InvalidInput : ErrorKind

/-- Modelled from the spec: a raw frame image (decoded pixel buffer). -/
structure Image where
  bytes : List Nat

/-- Modelled from the spec: a named anatomical landmark with coordinates
and a visibility score (held here in per-mille, 0 to 1000). -/
structure Keypoint where
  name : String
  x : Int
  y : Int
  visibility : Nat

/-- Modelled from the spec: a named joint angle in degrees with a
validity flag (false when a contributing keypoint fell below the
confidence threshold). -/
structure AngleMeasurement where
  joint : String
  value : Int
  valid : Bool

/-- Modelled from the spec: one rule of a rule table — a joint-angle
name, an accepted range and the issue text emitted on violation. -/
structure Rule where
  joint : String
  lo : Int
  hi : Int
  issue : String

/-- Modelled from the spec: the squat rule table (the knee range [90,160]
comes from the scenario of section 8). -/
def squatRules : List Rule :=
  [ { joint := "knee", lo := 90, hi := 160, issue := "knee angle too small" },
    { joint := "back", lo := 160, hi := 180, issue := "back not straight" },
    { joint := "hip", lo := 60, hi := 170, issue := "hips not level" } ]

/-- Modelled from the spec: the sitting rule table. -/
def sittingRules : List Rule :=
  [ { joint := "back", lo := 160, hi := 180, issue := "back not straight" },
    { joint := "neck", lo := 150, hi := 180, issue := "neck bent forward" } ]

/-- Modelled from the spec: data-driven dispatch from mode string to rule
table; any other mode is unsupported. -/
def ruleTable : String → Option (List Rule)
  | "squat" => some squatRules
  | "sitting" => some sittingRules
  | _ => none

/-- Modelled from the spec: a per-frame verdict — status, ordered issues,
and a numeric score that is null on analysis error. -/
structure FrameVerdict where
  status : String
  issues : List String
  score : Option Int

/-- The first valid measurement for a joint, if any; invalid measurements
are excluded from rule evaluation, never defaulted. -/
def lookupValid (angles : List AngleMeasurement) (joint : String) : Option Int :=
  (angles.find? (fun a => a.joint = joint && a.valid)).map AngleMeasurement.value

/-- Walk the rule table in order; each violated rule appends one issue.
Rules whose joint has no valid measurement are skipped. -/
def issuesOf (rules : List Rule) (angles : List AngleMeasurement) : List String :=
  rules.filterMap (fun r =>
    match lookupValid angles r.joint with
    | some v => if v < r.lo || r.hi < v then some r.issue else none
    | none => none)

/-- Modelled from the spec: the fixed penalty-per-issue constant,
calibrated so the score reaches 0 at 5 issues. -/
def penaltyK : Nat := 20

/-- Modelled from the spec: score = max(0, 100 - k * issueCount). -/
def scoreOf (issueCount : Nat) : Int :=
  max 0 (100 - (penaltyK : Int) * issueCount)

/-- Modelled from the spec: status bands — at least 85 "Good Form", at
least 50 "Needs Improvement", else "Poor Form". -/
def statusOf (score : Int) : String :=
  if 85 ≤ score then "Good Form"
  else if 50 ≤ score then "Needs Improvement"
  else "Poor Form"

/-- Modelled from the spec: the Rule Evaluator. Unsupported mode is a
structured error; an angle set with no valid measurement at all yields
an "Analysis Error" verdict with null score; otherwise issues, score and
status are derived deterministically from the rule table. -/
def evaluate (mode : String) (angles : List AngleMeasurement) :
    Except ErrorKind FrameVerdict :=
  match ruleTable mode with
  | none => .error .UnsupportedMode
  | some rules =>
    if angles.all (fun a => !a.valid) then
      .ok { status := "Analysis Error", issues := ["No valid measurements"], score := none }
    else
      let iss := issuesOf rules angles
      .ok { status := statusOf (scoreOf iss.length), issues := iss,
            score := some (scoreOf iss.length) }

/-- Modelled from the spec: the Frame Analyzer. The Landmark Source
(`detect`) and the Angle Calculator pipeline (`deriveAngles`, the
dot-product/arccosine geometry on real coordinates, whose numeric output
is irrelevant to the claims) are parameters. When the Landmark Source
returns no detection the failure is recovered locally into an
"Analysis Error" verdict with issue "No pose detected" and null score;
the function never fails for a missing subject. -/
def analyzeFrame (detect : Image → Option (List Keypoint))
    (deriveAngles : List Keypoint → List AngleMeasurement)
    (mode : String) (img : Image) : Except ErrorKind FrameVerdict :=
  match detect img with
  | none => .ok { status := "Analysis Error", issues := ["No pose detected"], score := none }
  | some kps => evaluate mode (deriveAngles kps)

/-- Bump the count of one issue in an insertion-ordered frequency list,
appending a fresh entry the first time the issue is seen. -/
def bumpCount (counts : List (String × Nat)) (issue : String) : List (String × Nat) :=
  match counts with
  | [] => [(issue, 1)]
  | (i, n) :: rest =>
    if i = issue then (i, n + 1) :: rest else (i, n) :: bumpCount rest issue

/-- Modelled from the spec: the running aggregates the Session Aggregator
keeps while folding over frames — issue-frequency counter, running score
sum, count of scored frames, and the undetected-frame tally. -/
structure AggState where
  counts : List (String × Nat)
  scoreSum : Int
  scored : Nat
  undetected : Nat

/-- The empty aggregation state. -/
def initAgg : AggState := { counts := [], scoreSum := 0, scored := 0, undetected := 0 }

/-- Modelled from the spec: fold one frame into the running aggregates.
A frame whose verdict carries a score contributes its issues and score;
a frame with a null score (no detection) only bumps the undetected
tally and is excluded from score averaging. -/
def aggStep (detect : Image → Option (List Keypoint))
    (deriveAngles : List Keypoint → List AngleMeasurement) (mode : String)
    (s : AggState) (img : Image) : AggState :=
  match analyzeFrame detect deriveAngles mode img with
  | .ok v =>
    match v.score with
    | some sc =>
      { counts := v.issues.foldl bumpCount s.counts,
        scoreSum := s.scoreSum + sc, scored := s.scored + 1,
        undetected := s.undetected }
    | none => { s with undetected := s.undetected + 1 }
  | .error _ => s

/-- Insert one issue-count pair after every entry with a count at least
as large, keeping descending order with ties in first-seen order. -/
def insertRanked (acc : List (String × Nat)) (p : String × Nat) : List (String × Nat) :=
  match acc with
  | [] => [p]
  | q :: rest => if p.2 ≤ q.2 then q :: insertRanked rest p else p :: q :: rest

/-- Rank an insertion-ordered frequency list descending by count. -/
def rankDesc (counts : List (String × Nat)) : List (String × Nat) :=
  counts.foldl insertRanked []

/-- Modelled from the spec: the per-video statistics block. -/
structure VideoStats where
  duration : ℚ
  total_frames : Nat
  analyzed_frames : Nat
  fps : Nat
  average_issues_per_frame : ℚ

/-- Modelled from the spec: the session report — overall verdict, video
statistics and the ranked most-common issues. -/
structure SessionReport where
  overall_analysis : FrameVerdict
  video_stats : VideoStats
  most_common_issues : List (String × Nat)

/-- Total issue occurrences recorded in a frequency list. -/
def totalIssueCount (counts : List (String × Nat)) : Nat :=
  (counts.map Prod.snd).sum

/-- Modelled from the spec: finish the aggregation after the full pass —
rank the issue counter, truncate to the top 5, derive the overall
verdict from the mean score over scored frames (Analysis Error with
null score when no frame was scored), and fill the statistics block. -/
def finalize (s : AggState) (totalFrames fps : Nat) : SessionReport :=
  let ranked := (rankDesc s.counts).take 5
  let analyzed := s.scored + s.undetected
  let overall : FrameVerdict :=
    if s.scored = 0 then
      { status := "Analysis Error", issues := ["No pose detected"], score := none }
    else
      let mean := s.scoreSum / (s.scored : Int)
      { status := statusOf mean, issues := ranked.map Prod.fst, score := some mean }
  { overall_analysis := overall,
    video_stats :=
      { duration := if fps = 0 then 0 else (totalFrames : ℚ) / (fps : ℚ),
        total_frames := totalFrames,
        analyzed_frames := analyzed,
        fps := fps,
        average_issues_per_frame :=
          if analyzed = 0 then 0 else (totalIssueCount s.counts : ℚ) / (analyzed : ℚ) },
    most_common_issues := ranked }

/-- Modelled from the spec: the Session Aggregator. An unsupported mode
fails the whole request; otherwise the report is produced only from the
fold over the complete frame sequence (every frame analyzed, stride 1). -/
def analyzeVideo (detect : Image → Option (List Keypoint))
    (deriveAngles : List Keypoint → List AngleMeasurement)
    (mode : String) (frames : List Image) (fps : Nat) :
    Except ErrorKind SessionReport :=
  match ruleTable mode with
  | none => .error .UnsupportedMode
  | some _ =>
    .ok (finalize (frames.foldl (aggStep detect deriveAngles mode) initAgg)
      frames.length fps)

/-- The single-frame engine output JSON `{status, score|null, details}`. -/
def verdictJson (v : FrameVerdict) : Json :=
  .obj [("status", .str v.status),
        ("score", match v.score with | some n => .num n | none => .null),
        ("details", .arr (v.issues.map Json.str))]

/-- The structured error message for each engine error kind. -/
def errorMessage : ErrorKind → String
  | .UnsupportedMode => "Unsupported mode"
  | .NoDetection => "No pose detected"
  | .InvalidInput => "Invalid input"

/-- The video engine output JSON
`{overall_analysis, video_stats, most_common_issues}`. -/
def reportJson (r : SessionReport) : Json :=
  .obj [("overall_analysis", verdictJson r.overall_analysis),
        ("video_stats",
          .obj [("duration", .num r.video_stats.duration.num),
                ("total_frames", .num r.video_stats.total_frames),
                ("analyzed_frames", .num r.video_stats.analyzed_frames),
                ("fps", .num r.video_stats.fps),
                ("average_issues_per_frame", .num r.video_stats.average_issues_per_frame.num)]),
        ("most_common_issues",
          .arr (r.most_common_issues.map (fun p =>
            .obj [("issue", .str p.1), ("count", .num p.2)])))]

/-- The engine behind the relay's `/frame` call: analyze the buffered
image as one frame and serialize the verdict. -/
def frameEngine (detect : Image → Option (List Keypoint))
    (deriveAngles : List Keypoint → List AngleMeasurement)
    (buffer : List Nat) (mode : String) : Except String Json :=
  match analyzeFrame detect deriveAngles mode { bytes := buffer } with
  | .ok v => .ok (verdictJson v)
  | .error e => .error (errorMessage e)

/-- The engine behind the relay's `/analyze` call: the video-reading
collaborator (`decode`, part of the engine boundary) turns the file path
into a frame sequence and an fps, then the Session Aggregator runs. -/
def videoEngine (detect : Image → Option (List Keypoint))
    (deriveAngles : List Keypoint → List AngleMeasurement)
    (decode : String → List Image × Nat)
    (path mode : String) : Except String Json :=
  match analyzeVideo detect deriveAngles mode (decode path).1 (decode path).2 with
  | .ok r => .ok (reportJson r)
  | .error e => .error (errorMessage e)

/-! ### The RecordPage client -/

/-- The only two `setRecordingMode` call sites in `RecordPage`: the two
mode-selector buttons. -/
inductive ModeEvent where
  | setSquat : ModeEvent
  | setSitting : ModeEvent

/-- The effect of one mode-selector click on the `recordingMode` state. -/
def applyModeEvent : String → ModeEvent → String
  | _, .setSquat => "squat"
  | _, .setSitting => "sitting"

/-- The `recordingMode` state after a sequence of clicks, starting from
the `useState("squat")` initialization. -/
def recordingModeAfter (events : List ModeEvent) : String :=
  events.foldl applyModeEvent "squat"

/-- The multipart form built by the live-analysis loop in `RecordPage`:
the blob is appended under the field name "frame" and the mode under
"mode". -/
structure FrameRequestForm where
  files : List (String × MemFile)
  mode : String

/-- `formData.append("frame", blob); formData.append("mode", recordingMode)`. -/
def recordPageFrameRequest (blob : MemFile) (recordingMode : String) : FrameRequestForm :=
  { files := [("frame", blob)], mode := recordingMode }

/-- The multipart form built by `handleVideoUpload`: the video file and
the mode. -/
structure VideoRequestForm where
  video : MemFile
  mode : String

/-- `formData.append("video", file); formData.append("mode", recordingMode)`. -/
def recordPageVideoRequest (file : MemFile) (recordingMode : String) : VideoRequestForm :=
  { video := file, mode := recordingMode }

/-- The `liveFeedback` state shape set by `RecordPage`. -/
structure LiveFeedback where
  status : String
  details : List String
  score : Option Int

/-- The fields `RecordPage` reads off a successful frame response
(`res.data.status`, `res.data.feedback`, `res.data.details`,
`res.data.score`). -/
structure FrameRespData where
  status : Option String
  feedback : Option (List String)
  details : Option (List String)
  score : Option Int

/-- JavaScript `x || null` on an optional number: both `undefined` and
the number 0 are falsy and collapse to null. -/
def jsNumOrNull (v : Option Int) : Option Int :=
  match v with
  | some n => if n = 0 then none else some n
  | none => none

/-- The live-analysis success branch:
`{status: res.data.status || "Analyzing...", details: res.data.feedback
|| res.data.details || [], score: res.data.score || null}`. -/
def liveSuccessFeedback (d : FrameRespData) : LiveFeedback :=
  { status := jsOr d.status "Analyzing...",
    details :=
      match d.feedback with
      | some l => l
      | none => match d.details with | some l => l | none => [],
    score := jsNumOrNull d.score }

/-- The live-analysis error branch:
`{status: "Analysis Error", details: [errorMsg], score: null}`. -/
def liveErrorFeedback (msg : String) : LiveFeedback :=
  { status := "Analysis Error", details := [msg], score := none }

/-- The `handleVideoUpload` catch branch:
`{status: "Analysis Error", details: [...], score: 0}`. -/
def uploadErrorFeedback (msg : String) : LiveFeedback :=
  { status := "Analysis Error", details := [msg], score := some 0 }

/-! ### The live-analysis polling loop -/

/-- `video.HAVE_ENOUGH_DATA`. -/
def HAVE_ENOUGH_DATA : Nat := 4

/-- The fixed polling interval of the live-analysis `setInterval`. -/
def frameIntervalMs : Nat := 600

/-- One firing of the interval callback, described by the state of the
world when it fires: the video element readiness, and how many of the
previously sent requests have already returned. -/
structure LiveTick where
  readyState : Nat
  responsesReturned : Nat

/-- Whether the interval callback captures and sends a frame at this
tick: the only guard in the code is
`video.readyState === video.HAVE_ENOUGH_DATA`. -/
def tickSends (t : LiveTick) : Bool :=
  t.readyState = HAVE_ENOUGH_DATA

/-- Number of frames sent strictly before tick `i` of a trace. -/
def sentBefore (trace : List LiveTick) (i : Nat) : Nat :=
  ((trace.take i).filter tickSends).length

/-- Number of requests still outstanding when tick `i` fires. -/
def pendingAt (trace : List LiveTick) (i : Nat) : Nat :=
  sentBefore trace i - (match trace.get? i with
                        | some t => t.responsesReturned
                        | none => 0)

/-! ### Claims -/

/-- A concrete engine video result with exactly the documented shape
`{overall_analysis, video_stats, most_common_issues}`. -/
def sampleVideoResult : Json :=
  .obj [("overall_analysis", .null), ("video_stats", .null), ("most_common_issues", .null)]

/-- C1, counterexample: on a successful video request the relay does NOT
return the engine JSON unmodified — the body it delivers is the wrapper
`{success, flaskResponse}`, not the engine object
`{overall_analysis, video_stats, most_common_issues}`. -/
theorem C1_relay_unmodified_counterexample :
    (analyzeUploadedVideo (fun _ _ => .ok sampleVideoResult)
        { file := some { path := "uploads/v" }, mode := some "squat" }).1.status = 200 ∧
    topKeys (analyzeUploadedVideo (fun _ _ => .ok sampleVideoResult)
        { file := some { path := "uploads/v" }, mode := some "squat" }).1.body
      = ["success", "flaskResponse"] ∧
    (analyzeUploadedVideo (fun _ _ => .ok sampleVideoResult)
        { file := some { path := "uploads/v" }, mode := some "squat" }).1.body
      ≠ sampleVideoResult := by
  refine ⟨rfl, rfl, fun h => ?_⟩
  have hk := congrArg topKeys h
  simp [analyzeUploadedVideo, sampleVideoResult, topKeys, jsOr] at hk

/-- C1, amended: on success the relay wraps the engine result — the video
response is `{success: true, flaskResponse: <engine data>}` and the
single-frame response is `{success: true, feedback: <engine data>}`,
with the engine data itself embedded unmodified as the field value. -/
theorem C1_relay_wraps (engineV : String → String → Except String Json)
    (engineF : List Nat → String → Except String Json)
    (reqV : UploadReqVideo) (reqF : FrameReq) (f : DiskFile) (g : MemFile)
    (dV dF : Json)
    (hfV : reqV.file = some f) (hV : engineV f.path (jsOr reqV.mode "squat") = .ok dV)
    (hfF : reqF.file = some g) (hF : engineF g.buffer (jsOr reqF.mode "squat") = .ok dF) :
    (analyzeUploadedVideo engineV reqV).1
      = { status := 200, body := .obj [("success", .bool true), ("flaskResponse", dV)] } ∧
    analyzeSingleFrame engineF reqF
      = { status := 200, body := .obj [("success", .bool true), ("feedback", dF)] } := by
  constructor
  · simp [analyzeUploadedVideo, hfV, hV]
  · simp [analyzeSingleFrame, hfF, hF]

/-- C1, witness for the amended theorem at concrete inputs. -/
theorem C1_relay_wraps_witness :
    (analyzeUploadedVideo (fun _ _ => .ok .null)
        { file := some { path := "uploads/v" }, mode := none }).1
      = { status := 200, body := .obj [("success", .bool true), ("flaskResponse", .null)] } ∧
    analyzeSingleFrame (fun _ _ => .ok .null)
        { file := some { buffer := [0] }, mode := none }
      = { status := 200, body := .obj [("success", .bool true), ("feedback", .null)] } :=
  C1_relay_wraps (fun _ _ => .ok .null) (fun _ _ => .ok .null)
    { file := some { path := "uploads/v" }, mode := none }
    { file := some { buffer := [0] }, mode := none }
    { path := "uploads/v" } { buffer := [0] } .null .null rfl rfl rfl rfl

/-- C2, counterexample: a video request with no mode selector does not
fail with a structured UnsupportedMode error — the relay silently
defaults the mode to "squat" and forwards it (the observing engine here
echoes back the mode it received), answering 200. -/
theorem C2_mode_defaulted_counterexample :
    analyzeUploadedVideo (fun _ m => .ok (.str m))
        { file := some { path := "uploads/v" }, mode := none }
      = ({ status := 200,
           body := .obj [("success", .bool true), ("flaskResponse", .str "squat")] },
         true) := rfl

/-- C2, amended: the relay silently defaults a missing or empty mode
selector to "squat" before forwarding; a present non-empty mode is
forwarded unchanged, and any forwarded mode with no rule table is
rejected by the engine with a structured UnsupportedMode error. -/
theorem C2_mode_defaulted (req : UploadReqVideo) (f : DiskFile)
    (hf : req.file = some f) :
    ((req.mode = none ∨ req.mode = some "") →
      (analyzeUploadedVideo (fun _ m => .ok (.str m)) req).1.body
        = .obj [("success", .bool true), ("flaskResponse", .str "squat")]) ∧
    (∀ m, req.mode = some m → m ≠ "" →
      (analyzeUploadedVideo (fun _ mm => .ok (.str mm)) req).1.body
        = .obj [("success", .bool true), ("flaskResponse", .str m)]) ∧
    (∀ mode, ruleTable mode = none →
      ∀ angles, evaluate mode angles = .error .UnsupportedMode) := by
  refine ⟨fun hm => ?_, fun m hm hne => ?_, fun mode hm angles => ?_⟩
  · rcases hm with hm | hm <;> simp [analyzeUploadedVideo, hf, hm, jsOr]
  · simp [analyzeUploadedVideo, hf, hm, jsOr, hne]
  · simp [evaluate, hm]

/-- C2, witness for the amended theorem at concrete inputs, exercising
the empty-mode request and the unsupported mode "jumping". -/
theorem C2_mode_defaulted_witness :
    (analyzeUploadedVideo (fun _ m => .ok (.str m))
        { file := some { path := "uploads/v" }, mode := some "" }).1.body
      = .obj [("success", .bool true), ("flaskResponse", .str "squat")] ∧
    evaluate "jumping" [] = .error .UnsupportedMode :=
  ⟨(C2_mode_defaulted { file := some { path := "uploads/v" }, mode := some "" }
      { path := "uploads/v" } rfl).1 (Or.inr rfl),
   (C2_mode_defaulted { file := some { path := "uploads/v" }, mode := some "" }
      { path := "uploads/v" } rfl).2.2 "jumping" rfl []⟩

/-- C3: when the landmark source finds no subject, `analyzeFrame`
recovers locally into a structurally valid verdict with status
"Analysis Error", issue "No pose detected" and null score; it never
fails; and the relay delivers it with HTTP 200, never as a 500. -/
theorem C3_no_detection_recovered (detect : Image → Option (List Keypoint))
    (deriveAngles : List Keypoint → List AngleMeasurement)
    (mode : String) (img : Image) (req : FrameReq)
    (hd : detect img = none) (hg : req.file = some { buffer := img.bytes }) :
    analyzeFrame detect deriveAngles mode img
      = .ok { status := "Analysis Error", issues := ["No pose detected"], score := none } ∧
    (∀ e, analyzeFrame detect deriveAngles mode img ≠ .error e) ∧
    analyzeSingleFrame (frameEngine detect deriveAngles) req
      = { status := 200,
          body := .obj [("success", .bool true),
            ("feedback", verdictJson
              { status := "Analysis Error", issues := ["No pose detected"], score := none })] } := by
  obtain ⟨bytes⟩ := img
  refine ⟨?_, ?_, ?_⟩
  · simp [analyzeFrame, hd]
  · intro e h
    rw [analyzeFrame, hd] at h
    exact Except.noConfusion h
  · simp [analyzeSingleFrame, hg, frameEngine, analyzeFrame, hd]

/-- C3, witness at a concrete detector, image and request. -/
theorem C3_no_detection_recovered_witness :
    analyzeFrame (fun _ => none) (fun _ => []) "squat" { bytes := [7] }
      = .ok { status := "Analysis Error", issues := ["No pose detected"], score := none } ∧
    (∀ e, analyzeFrame (fun _ => none) (fun _ => []) "squat" { bytes := [7] } ≠ .error e) ∧
    analyzeSingleFrame (frameEngine (fun _ => none) (fun _ => []))
        { file := some { buffer := [7] }, mode := some "squat" }
      = { status := 200,
          body := .obj [("success", .bool true),
            ("feedback", verdictJson
              { status := "Analysis Error", issues := ["No pose detected"], score := none })] } :=
  C3_no_detection_recovered (fun _ => none) (fun _ => []) "squat" { bytes := [7] }
    { file := some { buffer := [7] }, mode := some "squat" } rfl rfl

/-- C5: for every mode with a rule table and every angle set with at
least one valid measurement, `evaluate` yields a verdict whose score is
`scoreOf issueCount = max 0 (100 - 20 * issueCount)`; that score is
monotonically non-increasing in the issue count, equals 100 exactly for
zero issues, and zero rule violations yields status "Good Form". -/
theorem C5_evaluate_score (mode : String) (angles : List AngleMeasurement)
    (rules : List Rule) (hr : ruleTable mode = some rules)
    (hv : angles.all (fun a => !a.valid) = false) :
    ∃ v, evaluate mode angles = .ok v ∧
      v.issues = issuesOf rules angles ∧
      v.score = some (scoreOf v.issues.length) ∧
      (∀ n : Nat, scoreOf n = max 0 (100 - 20 * (n : Int))) ∧
      (∀ n m : Nat, n ≤ m → scoreOf m ≤ scoreOf n) ∧
      (∀ n : Nat, scoreOf n = 100 ↔ n = 0) ∧
      (v.issues = [] → v.status = "Good Form") := by
  refine ⟨{ status := statusOf (scoreOf (issuesOf rules angles).length),
            issues := issuesOf rules angles,
            score := some (scoreOf (issuesOf rules angles).length) }, ?_, rfl, rfl, ?_, ?_, ?_, ?_⟩
  · simp [evaluate, hr, hv]
  · intro n
    rfl
  · intro n m h
    simp only [scoreOf, penaltyK, max_def]
    split <;> split <;> omega
  · intro n
    simp only [scoreOf, penaltyK, max_def]
    split <;> omega
  · intro h
    have h2 : issuesOf rules angles = [] := h
    rw [h2]
    decide

/-- C5, witness: a squat angle set with one valid in-range knee angle
evaluates to score 100 and "Good Form"; the score constants are checked
at concrete issue counts through the theorem. -/
theorem C5_evaluate_score_witness :
    ∃ v, evaluate "squat" [{ joint := "knee", value := 120, valid := true }] = .ok v ∧
      v.issues = issuesOf squatRules [{ joint := "knee", value := 120, valid := true }] ∧
      v.score = some (scoreOf v.issues.length) ∧
      (∀ n : Nat, scoreOf n = max 0 (100 - 20 * (n : Int))) ∧
      (∀ n m : Nat, n ≤ m → scoreOf m ≤ scoreOf n) ∧
      (∀ n : Nat, scoreOf n = 100 ↔ n = 0) ∧
      (v.issues = [] → v.status = "Good Form") :=
  C5_evaluate_score "squat" [{ joint := "knee", value := 120, valid := true }]
    squatRules rfl rfl

/-- C6: a whole-video request is all-or-nothing — the caller receives
either a structured 500 error object or a 200 response whose body holds
the report produced by `finalize` applied to the fold of the aggregation
step over the complete decoded frame sequence; no other (partial)
response shape exists. -/
theorem C6_video_all_or_nothing (detect : Image → Option (List Keypoint))
    (deriveAngles : List Keypoint → List AngleMeasurement)
    (decode : String → List Image × Nat) (req : UploadReqVideo) :
    let resp := (analyzeUploadedVideo (videoEngine detect deriveAngles decode) req).1
    (resp.status = 500 ∧
      ∃ msg, resp.body = .obj [("success", .bool false), ("error", .str msg)]) ∨
    (resp.status = 200 ∧
      ∃ f r, req.file = some f ∧
        analyzeVideo detect deriveAngles (jsOr req.mode "squat")
            (decode f.path).1 (decode f.path).2 = .ok r ∧
        r = finalize
              ((decode f.path).1.foldl
                (aggStep detect deriveAngles (jsOr req.mode "squat")) initAgg)
              (decode f.path).1.length (decode f.path).2 ∧
        resp.body = .obj [("success", .bool true), ("flaskResponse", reportJson r)]) := by
  intro resp
  match hfile : req.file with
  | none =>
    left
    constructor
    · simp [resp, analyzeUploadedVideo, hfile]
    · exact ⟨undefinedFileMsg, by simp [resp, analyzeUploadedVideo, hfile]⟩
  | some f =>
    match hv : analyzeVideo detect deriveAngles (jsOr req.mode "squat")
        (decode f.path).1 (decode f.path).2 with
    | .error e =>
      left
      have he : videoEngine detect deriveAngles decode f.path (jsOr req.mode "squat")
          = .error (errorMessage e) := by
        simp [videoEngine, hv]
      constructor
      · simp [resp, analyzeUploadedVideo, hfile, he]
      · exact ⟨errorMessage e, by simp [resp, analyzeUploadedVideo, hfile, he]⟩
    | .ok r =>
      right
      have he : videoEngine detect deriveAngles decode f.path (jsOr req.mode "squat")
          = .ok (reportJson r) := by
        simp [videoEngine, hv]
      have hfin : r = finalize
          ((decode f.path).1.foldl
            (aggStep detect deriveAngles (jsOr req.mode "squat")) initAgg)
          (decode f.path).1.length (decode f.path).2 := by
        revert hv
        unfold analyzeVideo
        match ruleTable (jsOr req.mode "squat") with
        | none => intro hv; exact Except.noConfusion hv
        | some _ =>
          intro hv
          exact (Except.ok.injEq _ _ ▸ hv).symm
      constructor
      · simp [resp, analyzeUploadedVideo, hfile, he]
      · exact ⟨f, r, rfl, hv, hfin, by simp [resp, analyzeUploadedVideo, hfile, he]⟩

/-- C7, counterexample: two call sites producing the same "analysis
failed, no score" feedback represent the score differently — the video
upload error branch stores 0, the live analysis error branch stores
null — so no single uniform convention holds. -/
theorem C7_score_convention_counterexample :
    (uploadErrorFeedback "Analysis failed. Please try again.").score = some 0 ∧
    (liveErrorFeedback "Unable to analyze current frame").score = none ∧
    (uploadErrorFeedback "Analysis failed. Please try again.").score
      ≠ (liveErrorFeedback "Unable to analyze current frame").score := by
  refine ⟨rfl, rfl, ?_⟩
  simp [uploadErrorFeedback, liveErrorFeedback]

/-- C7, amended: the call sites are inconsistent about "no score" — the
video-upload error branch represents it as 0, the live-analysis error
branch as null, and the live-analysis success branch collapses a genuine
engine score of 0 to null while keeping any non-zero score. -/
theorem C7_score_convention (msg : String) (d : FrameRespData) (n : Int) :
    (uploadErrorFeedback msg).score = some 0 ∧
    (liveErrorFeedback msg).score = none ∧
    (d.score = some 0 → (liveSuccessFeedback d).score = none) ∧
    (d.score = some n → n ≠ 0 → (liveSuccessFeedback d).score = some n) := by
  refine ⟨rfl, rfl, fun h => ?_, fun h hn => ?_⟩
  · simp [liveSuccessFeedback, jsNumOrNull, h]
  · simp [liveSuccessFeedback, jsNumOrNull, h, hn]

/-- C7, witness for the amended theorem at concrete inputs. -/
theorem C7_score_convention_witness :
    (liveSuccessFeedback ⟨none, none, none, some 0⟩).score = none ∧
    (liveSuccessFeedback ⟨none, none, none, some 73⟩).score = some 73 :=
  ⟨(C7_score_convention "x" ⟨none, none, none, some 0⟩ 0).2.2.1 rfl,
   (C7_score_convention "x" ⟨none, none, none, some 73⟩ 73).2.2.2 rfl (by decide)⟩

/-- C8, counterexample: in the live loop a frame is sent at tick 1 of
this trace even though the request sent at tick 0 has not returned
(one request pending), so the caller does not wait for the previous
response before sending the next frame. -/
theorem C8_backpressure_counterexample :
    tickSends { readyState := 4, responsesReturned := 0 } = true ∧
    sentBefore [{ readyState := 4, responsesReturned := 0 },
                { readyState := 4, responsesReturned := 0 }] 1 = 1 ∧
    pendingAt [{ readyState := 4, responsesReturned := 0 },
               { readyState := 4, responsesReturned := 0 }] 1 = 1 := by
  decide

/-- C8, amended: the live loop polls at a fixed 600 ms interval, but
applies no backpressure — whether a tick sends a frame depends only on
the video readiness (`readyState = HAVE_ENOUGH_DATA`) and is independent
of how many earlier responses have returned. -/
theorem C8_no_backpressure :
    frameIntervalMs = 600 ∧
    (∀ rs n m : Nat,
      tickSends { readyState := rs, responsesReturned := n }
        = tickSends { readyState := rs, responsesReturned := m }) ∧
    (∀ t : LiveTick, tickSends t = true ↔ t.readyState = HAVE_ENOUGH_DATA) := by
  refine ⟨rfl, fun rs n m => rfl, fun t => ?_⟩
  simp [tickSends]

/-- Invariant carrier for C9: folding mode-selector clicks keeps the
state in the two-element mode set. -/
theorem modeFold_mem (events : List ModeEvent) (init : String)
    (h : init = "squat" ∨ init = "sitting") :
    events.foldl applyModeEvent init = "squat" ∨
    events.foldl applyModeEvent init = "sitting" := by
  induction events generalizing init with
  | nil => simpa using h
  | cons e rest ih =>
    cases e with
    | setSquat => exact ih "squat" (Or.inl rfl)
    | setSitting => exact ih "sitting" (Or.inr rfl)

/-- C9: starting from the `useState("squat")` initialization, any
sequence of mode-selector clicks leaves `recordingMode` equal to "squat"
or "sitting", and that exact state is the mode field appended to every
frame request and every video request the page issues. -/
theorem C9_mode_invariant (events : List ModeEvent) (blob file : MemFile) :
    (recordingModeAfter events = "squat" ∨ recordingModeAfter events = "sitting") ∧
    (recordPageFrameRequest blob (recordingModeAfter events)).mode
      = recordingModeAfter events ∧
    (recordPageVideoRequest file (recordingModeAfter events)).mode
      = recordingModeAfter events :=
  ⟨modeFold_mem events "squat" (Or.inl rfl), rfl, rfl⟩

/-- C10: the full-video relay deletes its temp file only on the success
path — an engine failure reaches the catch branch, which responds
without unlinking — while the analyze-squat route deletes its uploaded
temp file on the success and the error path alike. -/
theorem C10_temp_file_cleanup (engine : String → String → Except String Json)
    (req : UploadReqVideo) (f : DiskFile) (hf : req.file = some f)
    (engine2 : String → Except String Json) (req2 : ExerciseReq) (g : DiskFile)
    (hg : req2.file = some g) :
    ((∃ d, engine f.path (jsOr req.mode "squat") = .ok d) →
      (analyzeUploadedVideo engine req).2 = true) ∧
    ((∃ msg, engine f.path (jsOr req.mode "squat") = .error msg) →
      (analyzeUploadedVideo engine req).2 = false) ∧
    (analyzeSquatRoute engine2 req2).2 = true := by
  refine ⟨fun ⟨d, hd⟩ => ?_, fun ⟨msg, hm⟩ => ?_, ?_⟩
  · simp [analyzeUploadedVideo, hf, hd]
  · simp [analyzeUploadedVideo, hf, hm]
  · match h2 : engine2 g.path with
    | .ok d => simp [analyzeSquatRoute, hg, h2]
    | .error msg => simp [analyzeSquatRoute, hg, h2]

/-- C10, witness: a succeeding engine leaves the video temp file
deleted, a failing engine leaves it on disk, and the analyze-squat route
deletes its temp file even when its engine fails. -/
theorem C10_temp_file_cleanup_witness :
    (analyzeUploadedVideo (fun _ _ => .ok .null)
        { file := some { path := "uploads/v" }, mode := none }).2 = true ∧
    (analyzeUploadedVideo (fun _ _ => .error "connect ECONNREFUSED")
        { file := some { path := "uploads/v" }, mode := none }).2 = false ∧
    (analyzeSquatRoute (fun _ => .error "connect ECONNREFUSED")
        { file := some { path := "temp/t" }, imagePath := none }).2 = true :=
  ⟨(C10_temp_file_cleanup (fun _ _ => .ok .null)
      { file := some { path := "uploads/v" }, mode := none } { path := "uploads/v" } rfl
      (fun _ => .error "connect ECONNREFUSED")
      { file := some { path := "temp/t" }, imagePath := none } { path := "temp/t" } rfl).1
      ⟨.null, rfl⟩,
   (C10_temp_file_cleanup (fun _ _ => .error "connect ECONNREFUSED")
      { file := some { path := "uploads/v" }, mode := none } { path := "uploads/v" } rfl
      (fun _ => .error "connect ECONNREFUSED")
      { file := some { path := "temp/t" }, imagePath := none } { path := "temp/t" } rfl).2.1
      ⟨"connect ECONNREFUSED", rfl⟩,
   (C10_temp_file_cleanup (fun _ _ => .ok .null)
      { file := some { path := "uploads/v" }, mode := none } { path := "uploads/v" } rfl
      (fun _ => .error "connect ECONNREFUSED")
      { file := some { path := "temp/t" }, imagePath := none } { path := "temp/t" } rfl).2.2⟩
